import Mathlib

/-!
Verification development for the dlflow file-validation and tabular-structure
inference engine.

The definitions below are a shallow embedding of
  * `src/api/services/file_validator.py` (the multi-stage file validator), and
  * `src/backend/app/services/data_processor.py` (time-column detection and
    variable classification),
translated line by line from the Python source.  External library calls
(filesystem probing, `magic`, `chardet`, `pandas`, `pyarrow`, `polars`,
`datetime.strptime`) are modelled as oracle fields of an environment record:
the engine's own control flow, finding construction, short-circuiting,
metadata accumulation and classification arithmetic are all concrete.
Machine floats that only flow into display strings are abbreviated; float
comparisons that decide findings are embedded as exact rational comparisons
(the quantities compared are small integer ratios, where IEEE double rounding
cannot cross the configured thresholds).
-/

namespace Dlflow

/-! ### Data model (`file_validator.py`, lines 14-64) -/

/-- The `ValidationSeverity` enum: error blocks upload, warning and info do not. -/
inductive ValidationSeverity where
  | error
  | warning
  | info
deriving DecidableEq, Repr

/-- The `ValidationResult` dataclass: one diagnostic finding. -/
structure ValidationResult where
  is_valid : Bool
  severity : ValidationSeverity
  code : String
  message : String
  field : Option String := none
  expected : Option String := none
  actual : Option String := none
  suggestions : List String := []
deriving DecidableEq, Repr

/-- Values stored in the report's `metadata` dict (`Dict[str, Any]` in the
source).  Floats stored only for display are embedded as exact rationals. -/
inductive MetaVal where
  | str (s : String)
  | num (n : Nat)
  | rat (q : ℚ)
  | list (l : List MetaVal)
  | dict (d : List (String × MetaVal))
  | none

/-- A Python dict with string keys, as an insertion-ordered association list. -/
abbrev Meta := List (String × MetaVal)

/-- The `d[k] = v` on a Python dict: overwrite in place if the key exists,
append otherwise. -/
def setKey (m : Meta) (k : String) (v : MetaVal) : Meta :=
  if m.any (fun p => p.1 == k) then
    m.map (fun p => if p.1 == k then (k, v) else p)
  else
    m ++ [(k, v)]

/-- The `m.update(d)` on Python dicts. -/
def dictUpdate (m d : Meta) : Meta :=
  d.foldl (fun acc p => setKey acc p.1 p.2) m

/-- The `k in m` on a Python dict. -/
def hasKey (m : Meta) (k : String) : Bool :=
  m.any (fun p => p.1 == k)

/-- The `m.get(k)` on a Python dict. -/
def lookupMeta (m : Meta) (k : String) : Option MetaVal :=
  (m.find? (fun p => p.1 == k)).map Prod.snd

/-- The `FileValidationReport` dataclass. -/
structure FileValidationReport where
  file_path : String
  file_size : Nat
  file_type : String
  encoding : Option String
  is_valid : Bool
  validation_results : List ValidationResult
  metadata : Meta

/-! ### Validator configuration (`_get_default_config`, lines 72-88) -/

/-- The validator's configuration dict.  The column-name regex is embedded as
a boolean predicate field (the default pattern is implemented below). -/
structure Config where
  max_file_size : Nat
  allowed_extensions : List String
  allowed_mime_types : List String
  max_columns : Nat
  max_rows : Nat
  required_encodings : List String
  datetime_columns : List String
  required_columns : List String
  column_name_ok : String → Bool
  validate_data_types : Bool
  check_duplicates : Bool
  check_null_percentage : Bool
  max_null_percentage : ℚ

/-- The default column-name rule `re.match(r'^[a-zA-Z][a-zA-Z0-9_]*$', col)`:
starts with an ASCII letter, then ASCII letters, digits or underscore. -/
def defaultColumnNameOk (s : String) : Bool :=
  match s.toList with
  | [] => false
  | c :: rest => c.isAlpha && rest.all (fun ch => ch.isAlpha || ch.isDigit || ch == '_')

/-- The `_get_default_config` (lines 72-88). -/
def _get_default_config : Config where
  max_file_size := 100 * 1024 * 1024
  allowed_extensions := [".csv", ".parquet"]
  allowed_mime_types := ["text/csv", "application/octet-stream"]
  max_columns := 1000
  max_rows := 1000000
  required_encodings := ["utf-8", "utf-8-sig"]
  datetime_columns := ["DateTime", "tagTime", "timestamp", "time"]
  required_columns := []
  column_name_ok := defaultColumnNameOk
  validate_data_types := true
  check_duplicates := true
  check_null_percentage := true
  max_null_percentage := 1/2

/-! ### The environment: external library calls as oracles

Every call into the OS / pandas / pyarrow / chardet / magic is a field of
`FileEnv`; a `PyRes.exc` value models the call raising an exception. -/

/-- Result of an external Python call: a value or a raised exception. -/
inductive PyRes (α : Type) where
  | ok (a : α)
  | exc (msg : String)
deriving DecidableEq, Repr

/-- Outcome of `pd.read_csv(file_path, encoding=encoding, nrows=100)`:
the parsed sample's column labels, or one of the caught error classes, or
another exception that escapes to `_validate_structure`'s handler. -/
inductive CsvRead where
  | ok (columns : List String)
  | emptyDataError
  | parserError (msg : String)
  | otherExc (msg : String)
deriving DecidableEq, Repr

/-- Outcome of `pq.ParquetFile(file_path)`: the schema as (name, type-label)
pairs plus the metadata row count, or a raised exception. -/
inductive ParquetRead where
  | ok (schema : List (String × String)) (numRows : Nat)
  | exc (msg : String)
deriving DecidableEq, Repr

/-- One column of the content-stage sample dataframe (first 10000 rows). -/
structure ContentColumn where
  name : String
  nullCount : Nat
  /-- Oracle for `pd.to_datetime(df[col].dropna().head(100))` succeeding. -/
  to_datetime_ok : Bool
deriving DecidableEq, Repr

/-- The content-stage sample dataframe, as far as the stage inspects it. -/
structure ContentDf where
  rows : Nat
  cols : List ContentColumn
  /-- The `df.duplicated().sum()`. -/
  duplicateCount : Nat
  /-- The `len(df.select_dtypes(include=['number']).columns)`. -/
  numericColumnCount : Nat
  /-- The `len(df.select_dtypes(include=['object']).columns)`. -/
  textColumnCount : Nat
deriving DecidableEq, Repr

/-- Everything the validator observes about one file path through external
calls.  `ext` is the lowercased `os.path.splitext` extension (pure string
bookkeeping in the source, not inspected by any claim). -/
structure FileEnv where
  path_exists : Bool
  getsize : PyRes Nat
  ext : String
  magic_mime : PyRes String
  /-- The `open(file_path, 'rb')` / `.read(10000)` raising (e.g. file deleted). -/
  csv_open_raises : Bool
  /-- The `chardet.detect(...)['encoding']` (None possible on binary garbage). -/
  chardet_encoding : Option String
  /-- The `chardet.detect(...)['confidence']` (display-only float). -/
  chardet_confidence : MetaVal
  csv_read : CsvRead
  /-- The `df_sample.dtypes.to_dict()` (display-only). -/
  csv_dtypes : MetaVal
  parquet_read : ParquetRead
  content_read_csv : PyRes ContentDf
  content_read_parquet : PyRes ContentDf

/-! ### Validation levels (`ValidationLevel` enum and `.value` strings) -/

/-- The `ValidationLevel` enum. -/
inductive ValidationLevel where
  | basic
  | structureLvl
  | content
  | advanced
deriving DecidableEq, Repr

/-- The `.value` string of each enum member. -/
def ValidationLevel.value : ValidationLevel → String
  | .basic => "basic"
  | .structureLvl => "structure"
  | .content => "content"
  | .advanced => "advanced"

/-! ### Finding constructors

One definition per finding the validator can emit, with the exact
`is_valid`/`severity`/`code` fields of the source.  Display strings with
float formatting (`:.1f`) are rendered with one floor-truncated decimal;
they feed no decision. -/

/-- Render `n` bytes as megabytes with one decimal (display only). -/
def fmtMB (n : Nat) : String :=
  let t := n * 10 / (1024 * 1024)
  toString (t / 10) ++ "." ++ toString (t % 10) ++ "MB"

def fileNotFoundFinding : ValidationResult where
  is_valid := false
  severity := .error
  code := "FILE_NOT_FOUND"
  message := "文件不存在"

def fileTooLargeFinding (cfg : Config) (file_size : Nat) : ValidationResult where
  is_valid := false
  severity := .error
  code := "FILE_TOO_LARGE"
  message := "文件大小超过限制"
  expected := some ("<= " ++ fmtMB cfg.max_file_size)
  actual := some (fmtMB file_size)
  suggestions := ["压缩文件或分割成多个小文件"]

def invalidExtensionFinding (cfg : Config) (file_ext : String) : ValidationResult where
  is_valid := false
  severity := .error
  code := "INVALID_FILE_EXTENSION"
  message := "不支持的文件格式"
  expected := some ("支持的格式: " ++ String.intercalate ", " cfg.allowed_extensions)
  actual := some file_ext
  suggestions := ["转换文件格式后重试"]

def unexpectedMimeFinding (cfg : Config) (mime_type : String) : ValidationResult where
  is_valid := false
  severity := .warning
  code := "UNEXPECTED_MIME_TYPE"
  message := "文件MIME类型异常"
  expected := some ("期望: " ++ String.intercalate ", " cfg.allowed_mime_types)
  actual := some mime_type
  suggestions := ["检查文件是否损坏"]

def mimeCheckFailedFinding : ValidationResult where
  is_valid := true
  severity := .warning
  code := "MIME_TYPE_CHECK_FAILED"
  message := "无法检测文件MIME类型"

def encodingWarningFinding (encoding : String) : ValidationResult where
  is_valid := false
  severity := .warning
  code := "ENCODING_WARNING"
  message := "文件编码可能导致中文乱码"
  expected := some "UTF-8"
  actual := some encoding
  suggestions := ["将文件转换为UTF-8编码"]

def tooManyColumnsFinding (cfg : Config) (num_columns : Nat) : ValidationResult where
  is_valid := false
  severity := .error
  code := "TOO_MANY_COLUMNS"
  message := "列数超过限制"
  expected := some ("<= " ++ toString cfg.max_columns)
  actual := some (toString num_columns)

def invalidColumnNamesFinding (invalid_columns : List String) : ValidationResult where
  is_valid := false
  severity := .warning
  code := "INVALID_COLUMN_NAMES"
  message := "列名格式不规范"
  field := some (String.intercalate ", " invalid_columns)
  suggestions := ["列名应以字母开头，只包含字母、数字和下划线"]

def duplicateColumnsFinding (duplicate_columns : List String) : ValidationResult where
  is_valid := false
  severity := .error
  code := "DUPLICATE_COLUMNS"
  message := "存在重复的列名"
  field := some (String.intercalate ", " duplicate_columns)
  suggestions := ["重命名重复的列"]

def emptyFileFinding : ValidationResult where
  is_valid := false
  severity := .error
  code := "EMPTY_FILE"
  message := "文件为空"

def csvParseErrorFinding (msg : String) : ValidationResult where
  is_valid := false
  severity := .error
  code := "CSV_PARSE_ERROR"
  message := "CSV解析错误: " ++ msg
  suggestions := ["检查CSV格式是否正确", "确认分隔符和引号使用"]

def parquetReadErrorFinding (msg : String) : ValidationResult where
  is_valid := false
  severity := .error
  code := "PARQUET_READ_ERROR"
  message := "Parquet文件读取错误: " ++ msg
  suggestions := ["检查文件是否损坏", "确认文件格式正确"]

def largeDatasetFinding (num_rows : Nat) : ValidationResult where
  is_valid := false
  severity := .warning
  code := "LARGE_DATASET"
  message := "数据集较大，处理可能需要更长时间"
  actual := some (toString num_rows ++ " 行")

def unsupportedFileTypeFinding (file_type : String) : ValidationResult where
  is_valid := false
  severity := .error
  code := "UNSUPPORTED_FILE_TYPE"
  message := "不支持的文件类型: " ++ file_type

def structureValidationFailedFinding (msg : String) : ValidationResult where
  is_valid := false
  severity := .error
  code := "STRUCTURE_VALIDATION_FAILED"
  message := "结构验证失败: " ++ msg
  suggestions := ["检查文件格式是否正确", "确认文件没有损坏"]

def highNullPercentageFinding (high_null_columns : List String) : ValidationResult where
  is_valid := true
  severity := .warning
  code := "HIGH_NULL_PERCENTAGE"
  message := "部分列空值比例较高"
  field := some (String.intercalate ", " high_null_columns)
  suggestions := ["检查数据完整性", "考虑数据清洗"]

def datetimeDetectedFinding (col : String) : ValidationResult where
  is_valid := true
  severity := .info
  code := "DATETIME_COLUMN_DETECTED"
  message := "检测到时间列: " ++ col
  field := some col

def datetimeParseWarningFinding (col : String) : ValidationResult where
  is_valid := true
  severity := .warning
  code := "DATETIME_PARSE_WARNING"
  message := "时间列格式可能不标准: " ++ col
  field := some col
  suggestions := ["检查时间格式是否标准"]

def duplicateRowsFinding (duplicate_count : Nat) : ValidationResult where
  is_valid := true
  severity := .warning
  code := "DUPLICATE_ROWS"
  message := "发现 " ++ toString duplicate_count ++ " 行重复数据"
  suggestions := ["考虑去除重复数据"]

def contentValidationFailedFinding (msg : String) : ValidationResult where
  is_valid := false
  severity := .error
  code := "CONTENT_VALIDATION_FAILED"
  message := "内容验证失败: " ++ msg
  suggestions := ["检查数据格式", "确认文件完整性"]

def validationExceptionFinding (msg : String) : ValidationResult where
  is_valid := false
  severity := .error
  code := "VALIDATION_EXCEPTION"
  message := "验证过程中发生异常: " ++ msg
  suggestions := ["请检查文件是否损坏", "尝试重新上传文件"]

/-! ### Stage implementations -/

/-- The `pandas.Index.duplicated()` with the default `keep='first'`, restricted to
the marked labels (`df_sample.columns[df_sample.columns.duplicated()]`):
every occurrence after the first of an equal label. -/
def duplicatedMarksAux (seen : List String) : List String → List String
  | [] => []
  | c :: rest =>
    if seen.contains c then c :: duplicatedMarksAux seen rest
    else duplicatedMarksAux (c :: seen) rest

def duplicatedMarks (cols : List String) : List String :=
  duplicatedMarksAux [] cols

/-- Python `needle in hay` on strings. -/
def hasInfixCharsAux (needle : List Char) : List Char → Bool
  | [] => needle.isEmpty
  | c :: rest => List.isPrefixOf needle (c :: rest) || hasInfixCharsAux needle rest

def strContains (hay needle : String) : Bool :=
  hasInfixCharsAux needle.toList hay.toList

/-- Python `str.lower()` as a character map (ASCII case mapping; the encoding
names and time-column names it is applied to are ASCII). -/
def pyLower (s : String) : String :=
  String.mk (s.data.map Char.toLower)

/-- The `_validate_basic` (lines 142-222).  Only `os.path.getsize` can raise out
of this stage (the MIME probe is caught locally). -/
def _validate_basic (cfg : Config) (env : FileEnv) :
    PyRes (List ValidationResult × Meta) :=
  if !env.path_exists then
    .ok ([fileNotFoundFinding], [])
  else
    match env.getsize with
    | .exc m => .exc m
    | .ok file_size =>
      let file_ext := env.ext
      let metadata : Meta :=
        dictUpdate [] [("file_size", MetaVal.num file_size), ("file_extension", MetaVal.str file_ext)]
      let sizeResults :=
        if file_size > cfg.max_file_size then [fileTooLargeFinding cfg file_size] else []
      if !(cfg.allowed_extensions.contains file_ext) then
        .ok (sizeResults ++ [invalidExtensionFinding cfg file_ext], metadata)
      else
        let mimeStep : List ValidationResult × Meta :=
          match env.magic_mime with
          | .exc _ => ([mimeCheckFailedFinding], metadata)
          | .ok mime_type =>
            let metadata := setKey metadata "mime_type" (MetaVal.str mime_type)
            (if !(cfg.allowed_mime_types.contains mime_type)
             then [unexpectedMimeFinding cfg mime_type] else [], metadata)
        let file_type :=
          if file_ext == ".csv" then "csv"
          else if file_ext == ".parquet" then "parquet"
          else "unknown"
        let metadata := setKey mimeStep.2 "file_type" (MetaVal.str file_type)
        .ok (sizeResults ++ mimeStep.1, metadata)

/-- The `_validate_csv_structure` (lines 253-346).  A `None` chardet encoding
makes `encoding.lower()` raise (`AttributeError`), and an uncaught
`pd.read_csv` exception also escapes; both are caught by
`_validate_structure`'s handler, which discards this stage's locals. -/
def _validate_csv_structure (cfg : Config) (env : FileEnv) :
    PyRes (List ValidationResult × Meta) :=
  if env.csv_open_raises then
    .exc "open failed"
  else
    let metadata : Meta :=
      [("encoding", match env.chardet_encoding with
                    | Option.some e => MetaVal.str e
                    | Option.none => MetaVal.none),
       ("encoding_confidence", env.chardet_confidence)]
    match env.chardet_encoding with
    | Option.none => .exc "AttributeError"
    | Option.some encoding =>
      let encResults :=
        if !((cfg.required_encodings.map pyLower).contains (pyLower encoding)) then
          [encodingWarningFinding encoding]
        else []
      match env.csv_read with
      | .ok cols =>
        let metadata := setKey metadata "num_columns" (MetaVal.num cols.length)
        let metadata := setKey metadata "columns" (MetaVal.list (cols.map MetaVal.str))
        let r1 :=
          if cols.length > cfg.max_columns then [tooManyColumnsFinding cfg cols.length] else []
        let invalid_columns := cols.filter (fun c => !(cfg.column_name_ok c))
        let r2 :=
          if !invalid_columns.isEmpty then [invalidColumnNamesFinding invalid_columns] else []
        let duplicate_columns := duplicatedMarks cols
        let r3 :=
          if !duplicate_columns.isEmpty then [duplicateColumnsFinding duplicate_columns] else []
        let metadata := setKey metadata "dtypes" env.csv_dtypes
        .ok (encResults ++ r1 ++ r2 ++ r3, metadata)
      | .emptyDataError => .ok (encResults ++ [emptyFileFinding], metadata)
      | .parserError m => .ok (encResults ++ [csvParseErrorFinding m], metadata)
      | .otherExc m => .exc m

/-- The `_validate_parquet_structure` (lines 348-399).  Its own handler catches
every read failure, so it never raises. -/
def _validate_parquet_structure (cfg : Config) (env : FileEnv) :
    List ValidationResult × Meta :=
  match env.parquet_read with
  | .exc m => ([parquetReadErrorFinding m], [])
  | .ok schema num_rows =>
    let metadata : Meta :=
      dictUpdate []
        [("num_columns", MetaVal.num schema.length),
         ("num_rows", MetaVal.num num_rows),
         ("columns", MetaVal.list (schema.map (fun f => MetaVal.str f.1))),
         ("schema", MetaVal.dict (schema.map (fun f => (f.1, MetaVal.str f.2))))]
    let r1 :=
      if schema.length > cfg.max_columns then [tooManyColumnsFinding cfg schema.length] else []
    let r2 := if num_rows > cfg.max_rows then [largeDatasetFinding num_rows] else []
    (r1 ++ r2, metadata)

/-- The `_validate_structure` (lines 224-251): dispatch on the file type, with a
catch-all turning any CSV-branch exception into `STRUCTURE_VALIDATION_FAILED`
(the handler returns the outer empty locals, discarding partial metadata). -/
def _validate_structure (cfg : Config) (env : FileEnv) (file_type : String) :
    List ValidationResult × Meta :=
  if file_type == "csv" then
    match _validate_csv_structure cfg env with
    | .ok r => r
    | .exc m => ([structureValidationFailedFinding m], [])
  else if file_type == "parquet" then
    _validate_parquet_structure cfg env
  else
    ([unsupportedFileTypeFinding file_type], [])

/-- The `_validate_content` (lines 401-492).  Null ratios are exact rationals
(`x/0 = 0` in `ℚ` matches pandas' `NaN > 0.5` being false for an empty
frame); the raise point modelled is the dataframe read, the only fallible
call before profiling. -/
def _validate_content (cfg : Config) (env : FileEnv) (file_type : String) :
    List ValidationResult × Meta :=
  let readOutcome : Option (PyRes ContentDf) :=
    if file_type == "csv" then Option.some env.content_read_csv
    else if file_type == "parquet" then Option.some env.content_read_parquet
    else Option.none
  match readOutcome with
  | Option.none => ([], [])
  | Option.some (.exc m) => ([contentValidationFailedFinding m], [])
  | Option.some (.ok df) =>
    let high_null_columns :=
      (df.cols.filter (fun c => (c.nullCount : ℚ) / (df.rows : ℚ) > cfg.max_null_percentage)).map
        (fun c => c.name)
    let r1 := if !high_null_columns.isEmpty then [highNullPercentageFinding high_null_columns] else []
    let metadata : Meta :=
      [("null_percentages",
        MetaVal.dict (df.cols.map (fun c => (c.name, MetaVal.rat ((c.nullCount : ℚ) / (df.rows : ℚ))))))]
    let datetime_columns :=
      df.cols.filter (fun c =>
        cfg.datetime_columns.any (fun dt => strContains (pyLower c.name) (pyLower dt)))
    let r2 :=
      datetime_columns.map (fun c =>
        if c.to_datetime_ok then datetimeDetectedFinding c.name
        else datetimeParseWarningFinding c.name)
    let metadata :=
      setKey metadata "datetime_columns"
        (MetaVal.list (datetime_columns.map (fun c => MetaVal.str c.name)))
    let dupStep : List ValidationResult × Meta :=
      if cfg.check_duplicates then
        ((if df.duplicateCount > 0 then [duplicateRowsFinding df.duplicateCount] else []),
         setKey metadata "duplicate_count" (MetaVal.num df.duplicateCount))
      else ([], metadata)
    let metadata :=
      setKey dupStep.2 "data_summary"
        (MetaVal.dict
          [("total_rows", MetaVal.num df.rows),
           ("total_columns", MetaVal.num df.cols.length),
           ("numeric_columns", MetaVal.num df.numericColumnCount),
           ("text_columns", MetaVal.num df.textColumnCount),
           ("datetime_columns", MetaVal.num datetime_columns.length)])
    (r1 ++ r2 ++ dupStep.1, metadata)

/-- The `_validate_advanced` (lines 494-502): the empty extension point. -/
def _validate_advanced : List ValidationResult × Meta := ([], [])

/-- The `_create_report` (lines 504-514). -/
def _create_report (file_path : String) (results : List ValidationResult)
    (metadata : Meta) (is_valid : Bool) : FileValidationReport where
  file_path := file_path
  file_size :=
    match lookupMeta metadata "file_size" with
    | Option.some (MetaVal.num n) => n
    | _ => 0
  file_type :=
    match lookupMeta metadata "file_type" with
    | Option.some (MetaVal.str s) => s
    | _ => "unknown"
  encoding :=
    match lookupMeta metadata "encoding" with
    | Option.some (MetaVal.str s) => Option.some s
    | _ => Option.none
  is_valid := is_valid
  validation_results := results
  metadata := metadata

/-- The string stored under `metadata['file_type']` (a non-string value would
simply compare unequal to `"csv"`/`"parquet"` in the source's dispatch). -/
def metaStr : MetaVal → String
  | .str s => s
  | _ => ""

/-- The `any(r.severity == ValidationSeverity.ERROR for r in results)`. -/
def hasError (results : List ValidationResult) : Bool :=
  results.any (fun r => r.severity == ValidationSeverity.error)

/-! ### `validate_file` (lines 90-140)

Translated as a pipeline of three straight-line functions mirroring the
source's sequence of guarded stages.  Alongside the report, the functions
thread the list of `metadata` snapshots taken right after each
`metadata.update(...)` call in `validate_file` (lines 99, 109, 119, 125), so
the metadata-accumulation claims can speak about intermediate states of the
actual run.  `KeyError` on a `metadata['file_type']` subscript propagates to
the top-level handler like any other exception (the branch is provably
unreachable, but kept for fidelity). -/

/-- Advanced stage (guard at line 122) plus the final verdict (lines
127-130). -/
def advancedAndFinish (file_path : String) (validation_level : ValidationLevel)
    (results : List ValidationResult) (metadata : Meta) (snaps : List Meta) :
    List Meta × FileValidationReport :=
  if validation_level == ValidationLevel.advanced then
    match lookupMeta metadata "file_type" with
    | Option.none =>
      (snaps, _create_report file_path [validationExceptionFinding "KeyError"] metadata false)
    | Option.some _ =>
      let ares := _validate_advanced
      let results := results ++ ares.1
      let metadata := dictUpdate metadata ares.2
      let snaps := snaps ++ [metadata]
      let is_valid := !hasError results
      (snaps, _create_report file_path results metadata is_valid)
  else
    let is_valid := !hasError results
    (snaps, _create_report file_path results metadata is_valid)

/-- Content stage (guard at line 116) feeding into the advanced stage. -/
def contentAndFinish (cfg : Config) (env : FileEnv) (file_path : String)
    (validation_level : ValidationLevel)
    (results : List ValidationResult) (metadata : Meta) (snaps : List Meta) :
    List Meta × FileValidationReport :=
  if ["content", "advanced"].contains validation_level.value then
    match lookupMeta metadata "file_type" with
    | Option.none =>
      (snaps, _create_report file_path [validationExceptionFinding "KeyError"] metadata false)
    | Option.some ftv =>
      let cres := _validate_content cfg env (metaStr ftv)
      let results := results ++ cres.1
      let metadata := dictUpdate metadata cres.2
      let snaps := snaps ++ [metadata]
      advancedAndFinish file_path validation_level results metadata snaps
  else
    advancedAndFinish file_path validation_level results metadata snaps

/-- The `validate_file` (lines 90-140), instrumented with metadata snapshots. -/
def validateFileAux (cfg : Config) (env : FileEnv) (file_path : String)
    (validation_level : ValidationLevel) : List Meta × FileValidationReport :=
  match _validate_basic cfg env with
  | .exc m =>
    ([], _create_report file_path [validationExceptionFinding m] [] false)
  | .ok basic =>
    let results := basic.1
    let metadata := dictUpdate [] basic.2
    let snaps := [metadata]
    if hasError basic.1 then
      (snaps, _create_report file_path results metadata false)
    else if ["structure", "content", "advanced"].contains validation_level.value then
      match lookupMeta metadata "file_type" with
      | Option.none =>
        (snaps, _create_report file_path [validationExceptionFinding "KeyError"] metadata false)
      | Option.some ftv =>
        let sres := _validate_structure cfg env (metaStr ftv)
        let results := results ++ sres.1
        let metadata := dictUpdate metadata sres.2
        let snaps := snaps ++ [metadata]
        if hasError sres.1 then
          (snaps, _create_report file_path results metadata false)
        else
          contentAndFinish cfg env file_path validation_level results metadata snaps
    else
      contentAndFinish cfg env file_path validation_level results metadata snaps

/-- The `FileValidator.validate_file`: the report returned to the caller. -/
def validate_file (cfg : Config) (env : FileEnv) (file_path : String)
    (validation_level : ValidationLevel) : FileValidationReport :=
  (validateFileAux cfg env file_path validation_level).2

/-- The metadata snapshots accumulated during the same run. -/
def validate_file_snapshots (cfg : Config) (env : FileEnv) (file_path : String)
    (validation_level : ValidationLevel) : List Meta :=
  (validateFileAux cfg env file_path validation_level).1

/-! ## Data processor (`src/backend/app/services/data_processor.py`)

A polars dataframe is embedded as a height plus a list of columns; cell
values are carried in their `str(value)` form (`Option.none` is a null),
which is all the time-format logic inspects.  `Series.n_unique()` is an
oracle field (the typed values it counts are not otherwise observed).
`datetime.strptime(s, "%Y-%m-%d %H:%M:%S")` succeeding is an oracle
predicate threaded as a parameter; the tagtime digit logic is concrete. -/

/-- Polars dtypes, as far as `analyze_variables` dispatches on them. -/
inductive PlDtype where
  | int64
  | float64
  | int32
  | float32
  | int16
  | int8
  | utf8
  | other (label : String)
deriving DecidableEq, Repr

/-- The `str(dtype)` labels (display only). -/
def dtypeStr : PlDtype → String
  | .int64 => "Int64"
  | .float64 => "Float64"
  | .int32 => "Int32"
  | .float32 => "Float32"
  | .int16 => "Int16"
  | .int8 => "Int8"
  | .utf8 => "Utf8"
  | .other label => label

/-- One polars column: name, dtype, `str(value)` cell forms, and the
`n_unique()` oracle. -/
structure PlColumn where
  name : String
  dtype : PlDtype
  values : List (Option String)
  nUnique : Nat
deriving DecidableEq, Repr

/-- The `Series.null_count()`: the number of null cells. -/
def PlColumn.null_count (c : PlColumn) : Nat :=
  c.values.countP (fun v => v.isNone)

/-- A polars dataframe.  (Polars cannot represent a positive height with zero
columns, so the claims below always exhibit a first column.) -/
structure PlDataFrame where
  height : Nat
  columns : List PlColumn
deriving DecidableEq, Repr

/-- The `settings.TIME_COLUMNS` (`config.py`, line 53). -/
def TIME_COLUMNS : List String := ["DateTime", "tagTime"]

/-- The `settings.DATETIME_FORMAT` (`config.py`, line 54). -/
def DATETIME_FORMAT : String := "%Y-%m-%d %H:%M:%S"

/-- The `settings.TAGTIME_FORMAT` (`config.py`, line 55). -/
def TAGTIME_FORMAT : String := "%Y%m%d%H"

/-- Gregorian leap year, as `datetime` uses it. -/
def isLeapYear (y : Nat) : Bool :=
  y % 4 == 0 && (y % 100 != 0 || y % 400 == 0)

/-- Days in a month, as `datetime` uses it. -/
def daysInMonth (y m : Nat) : Nat :=
  if m == 1 || m == 3 || m == 5 || m == 7 || m == 8 || m == 10 || m == 12 then 31
  else if m == 4 || m == 6 || m == 9 || m == 11 then 30
  else if isLeapYear y then 29
  else 28

/-- The `datetime(year, month, day, hour)` not raising `ValueError`. -/
def datetimeValid (y m d h : Nat) : Bool :=
  1 ≤ y && y ≤ 9999 && 1 ≤ m && m ≤ 12 && 1 ≤ d && d ≤ daysInMonth y m && h ≤ 23

/-- The result of a successful `datetime(year, month, day, hour)` call. -/
structure PyDatetime where
  year : Nat
  month : Nat
  day : Nat
  hour : Nat
deriving DecidableEq, Repr

/-- First code point of every run of ten consecutive Unicode decimal digits
(category `Nd`, digit values 0-9 in order), per Unicode 14.0 as shipped with
CPython 3.11's `unicodedata`; every `Nd` code point lies in exactly one such
run, at the offset given by its decimal value.  Later Unicode versions only
append further runs, which no claim exercises. -/
def pyDecDigitRunBases : List Nat :=
  [48, 1632, 1776, 1984, 2406, 2534, 2662, 2790, 2918, 3046,
    3174, 3302, 3430, 3558, 3664, 3792, 3872, 4160, 4240, 6112,
    6160, 6470, 6608, 6784, 6800, 6992, 7088, 7232, 7248, 42528,
    43216, 43264, 43472, 43504, 43600, 44016, 65296, 66720, 68912, 69734,
    69872, 69942, 70096, 70384, 70736, 70864, 71248, 71360, 71472, 71904,
    72016, 72784, 73040, 73120, 92768, 92864, 93008, 120782, 120792, 120802,
    120812, 120822, 123200, 123632, 125264, 130032]

/-- The decimal value of a Unicode decimal digit (category `Nd`), `none` for
every other character: the digits `int()` accepts and the value it assigns
them.  Python's `str.isdigit()` accepts these plus digit-typed non-decimal
characters (such as the superscript two); on those the source's subsequent
`int()` call raises `ValueError`, which `_validate_time_format` and
`_parse_tagtime` catch into the same `False`/`None` result — so both the
`isdigit` guard and the `int` parse collapse observably to this decimal
test. -/
def pyDecDigitVal (c : Char) : Option Nat :=
  match pyDecDigitRunBases.find? (fun b => b ≤ c.toNat && c.toNat ≤ b + 9) with
  | Option.some b => Option.some (c.toNat - b)
  | Option.none => Option.none

/-- Whether a character is a Unicode decimal digit. -/
def pyIsDecDigit (c : Char) : Bool :=
  (pyDecDigitVal c).isSome

/-- The value `int()` gives a run of Unicode decimal digit characters. -/
def pyDigitsToNat (cs : List Char) : Nat :=
  cs.foldl (fun a c => 10 * a + ((pyDecDigitVal c).getD 0)) 0

/-- The `int(value_str[0:4])` on a 10-digit string. -/
def tagtimeYear (s : String) : Nat := pyDigitsToNat (s.toList.take 4)

/-- The `int(value_str[4:6])`. -/
def tagtimeMonth (s : String) : Nat := pyDigitsToNat ((s.toList.drop 4).take 2)

/-- The `int(value_str[6:8])`. -/
def tagtimeDay (s : String) : Nat := pyDigitsToNat ((s.toList.drop 6).take 2)

/-- The `int(value_str[8:10])`. -/
def tagtimeHour (s : String) : Nat := pyDigitsToNat ((s.toList.drop 8).take 2)

/-- The tagtime checks of `_validate_time_format` (lines 52-64): exactly 10
Unicode decimal digits whose `(year, month, day, hour)` decomposition is a
valid datetime (see `pyDecDigitVal` for why `str.isdigit()` plus `int()`
amount to the decimal-digit test). -/
def tagtimeStringOk (s : String) : Bool :=
  s.length == 10 && s.toList.all pyIsDecDigit &&
    datetimeValid (tagtimeYear s) (tagtimeMonth s) (tagtimeDay s) (tagtimeHour s)

/-- The per-value format check of `_validate_time_format`: `strptime` against
`DATETIME_FORMAT` for `datetime` columns, the 10-digit decomposition for
`tagtime` columns (any other tag checks nothing, as in the source). -/
def timeValueOk (strptimeOk : String → Bool) (column_type : String) (s : String) : Bool :=
  if column_type == "datetime" then strptimeOk s
  else if column_type == "tagtime" then tagtimeStringOk s
  else true

/-- The `DataProcessor._validate_time_format` (lines 40-68).  The `try` spans the
whole loop, so one failing value invalidates every value (all-or-nothing);
`None` values are skipped. -/
def _validate_time_format (strptimeOk : String → Bool)
    (values : List (Option String)) (column_type : String) : Bool :=
  values.all (fun value =>
    match value with
    | Option.none => true
    | Option.some s => timeValueOk strptimeOk column_type s)

/-- The dict returned by a successful detection. -/
structure TimeColumnInfo where
  column_name : String
  column_type : String
  format : String
  detected : Bool
deriving DecidableEq, Repr

/-- The `DataProcessor.detect_time_column` (lines 14-38).  Empty frames and
non-matching first column names yield `None`; the format check runs on
`df[first_column].head(10).to_list()`. -/
def detect_time_column (strptimeOk : String → Bool) (df : PlDataFrame) :
    Option TimeColumnInfo :=
  if df.height == 0 then
    Option.none
  else
    match df.columns with
    | [] => Option.none
    | first_column :: _ =>
      if TIME_COLUMNS.contains first_column.name then
        let column_type := if first_column.name == "DateTime" then "datetime" else "tagtime"
        let sample_values := first_column.values.take 10
        if _validate_time_format strptimeOk sample_values column_type then
          Option.some
            { column_name := first_column.name
              column_type := column_type
              format := if column_type == "datetime" then DATETIME_FORMAT else TAGTIME_FORMAT
              detected := true }
        else
          Option.none
      else
        Option.none

/-- The `DataProcessor._parse_tagtime` (lines 92-110), translated from its own
lines (independently of `_validate_time_format`): the `try`/`except` and the
early `return None`s make it total.  The digit guard is the Unicode
decimal-digit test: `str.isdigit()` also admits digit-typed non-decimal
characters, but on those `int()` raises `ValueError` into the very same
`None` (see `pyDecDigitVal`). -/
def _parse_tagtime (value : Option String) : Option PyDatetime :=
  match value with
  | Option.none => Option.none
  | Option.some value_str =>
    if value_str.length != 10 || !(value_str.toList.all pyIsDecDigit) then
      Option.none
    else
      let year := pyDigitsToNat (value_str.toList.take 4)
      let month := pyDigitsToNat ((value_str.toList.drop 4).take 2)
      let day := pyDigitsToNat ((value_str.toList.drop 6).take 2)
      let hour := pyDigitsToNat ((value_str.toList.drop 8).take 2)
      if datetimeValid year month day hour then
        Option.some { year := year, month := month, day := day, hour := hour }
      else
        Option.none

/-- The `tagtime` branch of `DataProcessor.parse_time_column` (lines 81-88):
`map_elements(lambda x: DataProcessor._parse_tagtime(x))` over the cells of
the detected column. -/
def parse_time_column_tagtime (values : List (Option String)) :
    List (Option PyDatetime) :=
  values.map _parse_tagtime

/-! ### `analyze_variables` (lines 112-181)

Python's true division raises `ZeroDivisionError` on a zero denominator, so
the classification loop is embedded in `Except`; everywhere else the embedding
is total. -/

/-- A raised Python exception observable from `analyze_variables`. -/
inductive PyErr where
  | zeroDivision
deriving DecidableEq, Repr

/-- One entry of the `numeric_variables` / `categorical_variables` /
`text_variables` lists. -/
structure VarEntry where
  name : String
  type : String
  dtype : String
  null_count : Nat
  unique_count : Nat
deriving DecidableEq, Repr

def numericEntry (c : PlColumn) : VarEntry where
  name := c.name
  type := "numeric"
  dtype := dtypeStr c.dtype
  null_count := c.null_count
  unique_count := c.nUnique

def categoricalEntry (c : PlColumn) : VarEntry where
  name := c.name
  type := "categorical"
  dtype := dtypeStr c.dtype
  null_count := c.null_count
  unique_count := c.nUnique

def textEntry (c : PlColumn) : VarEntry where
  name := c.name
  type := "text"
  dtype := dtypeStr c.dtype
  null_count := c.null_count
  unique_count := c.nUnique

def otherEntry (c : PlColumn) : VarEntry where
  name := c.name
  type := "other"
  dtype := dtypeStr c.dtype
  null_count := c.null_count
  unique_count := c.nUnique

/-- The dtype list of the numeric branch (line 132). -/
def numericDtypes : List PlDtype :=
  [PlDtype.int64, PlDtype.float64, PlDtype.int32, PlDtype.float32, PlDtype.int16, PlDtype.int8]

/-- The `for col in columns` classification loop (lines 129-169), in
iteration order.  `unique_count / total_count` is Python true division:
a zero `total_count` raises `ZeroDivisionError` at the first string column. -/
def classifyColumns (height : Nat) :
    List PlColumn → Except PyErr (List VarEntry × List VarEntry × List VarEntry)
  | [] => .ok ([], [], [])
  | col :: rest =>
    if numericDtypes.contains col.dtype then
      match classifyColumns height rest with
      | .error e => .error e
      | .ok (ns, cs, ts) => .ok (numericEntry col :: ns, cs, ts)
    else if col.dtype == PlDtype.utf8 then
      if height == 0 then
        .error PyErr.zeroDivision
      else if (col.nUnique : ℚ) / (height : ℚ) < 1/2 then
        match classifyColumns height rest with
        | .error e => .error e
        | .ok (ns, cs, ts) => .ok (ns, categoricalEntry col :: cs, ts)
      else
        match classifyColumns height rest with
        | .error e => .error e
        | .ok (ns, cs, ts) => .ok (ns, cs, textEntry col :: ts)
    else
      match classifyColumns height rest with
      | .error e => .error e
      | .ok (ns, cs, ts) => .ok (ns, cs, otherEntry col :: ts)

/-- The dict returned by `analyze_variables` (`variable_summary` counts are
the lengths of the three lists, so they are not duplicated here). -/
structure VarAnalysis where
  total_variables : Nat
  numeric_variables : List VarEntry
  categorical_variables : List VarEntry
  text_variables : List VarEntry
deriving DecidableEq, Repr

/-- The `DataProcessor.analyze_variables` (lines 112-181). -/
def analyze_variables (strptimeOk : String → Bool) (df : PlDataFrame)
    (exclude_time_column : Bool) : Except PyErr VarAnalysis :=
  let columns := df.columns
  let columns :=
    if exclude_time_column && !columns.isEmpty then
      match detect_time_column strptimeOk df with
      | Option.some time_info => columns.filter (fun c => c.name != time_info.column_name)
      | Option.none => columns
    else columns
  match classifyColumns df.height columns with
  | .error e => .error e
  | .ok (ns, cs, ts) =>
    .ok { total_variables := columns.length
          numeric_variables := ns
          categorical_variables := cs
          text_variables := ts }

/-! ## Helper lemmas -/

@[simp]
theorem create_report_is_valid (fp : String) (rs : List ValidationResult) (m : Meta)
    (b : Bool) : (_create_report fp rs m b).is_valid = b := rfl

@[simp]
theorem create_report_results (fp : String) (rs : List ValidationResult) (m : Meta)
    (b : Bool) : (_create_report fp rs m b).validation_results = rs := rfl

@[simp]
theorem create_report_metadata (fp : String) (rs : List ValidationResult) (m : Meta)
    (b : Bool) : (_create_report fp rs m b).metadata = m := rfl

@[simp]
theorem hasError_append (a b : List ValidationResult) :
    hasError (a ++ b) = (hasError a || hasError b) := by
  simp [hasError]

@[simp]
theorem hasError_nil : hasError [] = false := rfl

theorem hasError_validationException (msg : String) :
    hasError [validationExceptionFinding msg] = true := rfl

/-- The Error-iff-invalid invariant of a run, as a property of reports. -/
def validFlagConsistent (r : FileValidationReport) : Prop :=
  r.is_valid = !hasError r.validation_results

theorem advancedAndFinish_validFlag (fp : String) (lvl : ValidationLevel)
    (results : List ValidationResult) (metadata : Meta) (snaps : List Meta) :
    validFlagConsistent (advancedAndFinish fp lvl results metadata snaps).2 := by
  unfold validFlagConsistent advancedAndFinish
  split
  · split
    · simp [hasError, validationExceptionFinding]
    · simp [_validate_advanced]
  · simp

theorem contentAndFinish_validFlag (cfg : Config) (env : FileEnv) (fp : String)
    (lvl : ValidationLevel) (results : List ValidationResult) (metadata : Meta)
    (snaps : List Meta) :
    validFlagConsistent (contentAndFinish cfg env fp lvl results metadata snaps).2 := by
  unfold contentAndFinish
  split
  · split
    · simp [validFlagConsistent, hasError, validationExceptionFinding]
    · exact advancedAndFinish_validFlag ..
  · exact advancedAndFinish_validFlag ..

/-- C1: On every exit path of `validate_file` — basic short-circuit,
structure short-circuit, normal completion and the top-level exception
handler — the report's `is_valid` flag is `true` exactly when no finding in
`validation_results` has severity `Error`. -/
theorem validate_file_is_valid_iff_no_error (cfg : Config) (env : FileEnv)
    (file_path : String) (lvl : ValidationLevel) :
    (validate_file cfg env file_path lvl).is_valid
      = !hasError (validate_file cfg env file_path lvl).validation_results := by
  unfold validate_file validateFileAux
  split
  · simp [hasError, validationExceptionFinding]
  · rename_i basic
    split
    · rename_i herr
      simp [herr]
    · rename_i herr
      split
      · dsimp only
        split
        · simp [hasError, validationExceptionFinding]
        · split
          · rename_i hserr
            simp only [create_report_is_valid, create_report_results]
            rw [hasError_append]
            simp [Bool.not_eq_true'] at herr
            simp [herr, hserr]
          · exact contentAndFinish_validFlag ..
      · exact contentAndFinish_validFlag ..

/-! ## Concrete environments used as witnesses -/

/-- A small healthy CSV observation, also reused (with field updates) by the
other concrete environments. -/
def envCsvOk : FileEnv where
  path_exists := true
  getsize := .ok 2048
  ext := ".csv"
  magic_mime := .ok "text/csv"
  csv_open_raises := false
  chardet_encoding := Option.some "utf-8"
  chardet_confidence := MetaVal.rat (87/100)
  csv_read := .ok ["id", "value"]
  csv_dtypes := MetaVal.dict []
  parquet_read := .ok [] 0
  content_read_csv :=
    .ok { rows := 2
          cols := [{ name := "id", nullCount := 0, to_datetime_ok := true }]
          duplicateCount := 0
          numericColumnCount := 1
          textColumnCount := 0 }
  content_read_parquet :=
    .ok { rows := 0, cols := [], duplicateCount := 0, numericColumnCount := 0,
          textColumnCount := 0 }

/-- The path does not exist. -/
def envNotFound : FileEnv := { envCsvOk with path_exists := false }

/-- The `os.path.getsize` raises after the existence check (file deleted in
between): the only stage-escaping exception reachable in the source. -/
def envSizeRaises : FileEnv := { envCsvOk with getsize := .exc "boom" }

/-- An existing file over the default 100 MiB ceiling. -/
def envTooLarge : FileEnv := { envCsvOk with getsize := .ok (200 * 1024 * 1024) }

/-- A parquet file whose schema repeats the column name `name`. -/
def envParquetDupSchema : FileEnv :=
  { envCsvOk with
    ext := ".parquet"
    magic_mime := .ok "application/octet-stream"
    parquet_read := .ok [("name", "Int64"), ("name", "Int64")] 5
    content_read_parquet :=
      .ok { rows := 5, cols := [{ name := "name", nullCount := 0, to_datetime_ok := true }],
            duplicateCount := 0, numericColumnCount := 1, textColumnCount := 0 } }

/-! ## C2: the top-level exception handler

Only the top-level handler creates `VALIDATION_EXCEPTION` findings, so the
claim's "whenever an exception escapes a stage" direction is proved in two
parts: the reachable escaping raise (`os.path.getsize` after the existence
check) produces exactly the single synthetic finding, and conversely every
report that contains a `VALIDATION_EXCEPTION` finding at all is that
single-finding failure report — which needs that no stage ever emits the
code, proved stage by stage below. -/

/-- Whether the findings list contains the synthetic top-level exception
code. -/
def hasExceptionCode (results : List ValidationResult) : Bool :=
  results.any (fun r => r.code == "VALIDATION_EXCEPTION")

@[simp]
theorem hasExceptionCode_append (a b : List ValidationResult) :
    hasExceptionCode (a ++ b) = (hasExceptionCode a || hasExceptionCode b) := by
  simp [hasExceptionCode]

/-- The basic stage never emits the exception code. -/
theorem validate_basic_hasExceptionCode (cfg : Config) (env : FileEnv) :
    (match _validate_basic cfg env with
     | PyRes.ok rsm => hasExceptionCode rsm.1
     | PyRes.exc _ => false) = false := by
  unfold _validate_basic
  split
  case h_2 => rfl
  case h_1 r heq =>
    dsimp only at heq
    repeat' split at heq
    all_goals first
      | (simp only [PyRes.ok.injEq] at heq
         rw [← heq]
         simp [hasExceptionCode, fileNotFoundFinding, fileTooLargeFinding,
           invalidExtensionFinding, mimeCheckFailedFinding, unexpectedMimeFinding])
      | simp at heq

/-- The CSV structure probe never emits the exception code. -/
theorem validate_csv_structure_hasExceptionCode (cfg : Config) (env : FileEnv) :
    (match _validate_csv_structure cfg env with
     | PyRes.ok out => hasExceptionCode out.1
     | PyRes.exc _ => false) = false := by
  unfold _validate_csv_structure
  split
  case h_2 => rfl
  case h_1 r heq =>
    dsimp only at heq
    repeat' split at heq
    all_goals first
      | (simp only [PyRes.ok.injEq] at heq
         rw [← heq]
         simp [hasExceptionCode, encodingWarningFinding, tooManyColumnsFinding,
           invalidColumnNamesFinding, duplicateColumnsFinding, emptyFileFinding,
           csvParseErrorFinding])
      | simp at heq

/-- The structure stage never emits the exception code. -/
theorem validate_structure_hasExceptionCode (cfg : Config) (env : FileEnv)
    (ft : String) :
    hasExceptionCode (_validate_structure cfg env ft).1 = false := by
  unfold _validate_structure
  split
  · have h0 := validate_csv_structure_hasExceptionCode cfg env
    split
    · rename_i r heq
      rw [heq] at h0
      simpa using h0
    · simp [hasExceptionCode, structureValidationFailedFinding]
  · split
    · unfold _validate_parquet_structure
      repeat' split
      all_goals simp [hasExceptionCode, parquetReadErrorFinding,
        tooManyColumnsFinding, largeDatasetFinding]
    · simp [hasExceptionCode, unsupportedFileTypeFinding]

theorem any_const_false {A : Type} (l : List A) : l.any (fun _ => false) = false := by
  induction l with
  | nil => rfl
  | cons a t ih => simpa using ih

/-- The content stage never emits the exception code. -/
theorem validate_content_hasExceptionCode (cfg : Config) (env : FileEnv)
    (ft : String) :
    hasExceptionCode (_validate_content cfg env ft).1 = false := by
  unfold _validate_content
  dsimp only
  split
  · rfl
  · simp [hasExceptionCode, contentValidationFailedFinding]
  · repeat' split
    all_goals
      simp [hasExceptionCode, List.any_append, List.any_map, Function.comp,
        apply_ite, highNullPercentageFinding, datetimeDetectedFinding,
        datetimeParseWarningFinding, duplicateRowsFinding, any_const_false]
    all_goals
      intro x c hc dt hdt hs hx
      split at hx <;> (rw [← hx]; simp)

theorem advancedAndFinish_exception (fp : String) (lvl : ValidationLevel)
    (results : List ValidationResult) (metadata : Meta) (snaps : List Meta)
    (h : hasExceptionCode results = false) :
    hasExceptionCode (advancedAndFinish fp lvl results metadata snaps).2.validation_results
        = true →
    ∃ msg, (advancedAndFinish fp lvl results metadata snaps).2.validation_results
        = [validationExceptionFinding msg] ∧
      (advancedAndFinish fp lvl results metadata snaps).2.is_valid = false := by
  unfold advancedAndFinish
  split
  · split
    · intro _
      exact ⟨"KeyError", rfl, rfl⟩
    · dsimp only
      intro hany
      simp only [create_report_results, _validate_advanced, List.append_nil] at hany
      rw [h] at hany
      cases hany
  · intro hany
    simp only [create_report_results] at hany
    rw [h] at hany
    cases hany

theorem contentAndFinish_exception (cfg : Config) (env : FileEnv) (fp : String)
    (lvl : ValidationLevel) (results : List ValidationResult) (metadata : Meta)
    (snaps : List Meta) (h : hasExceptionCode results = false) :
    hasExceptionCode (contentAndFinish cfg env fp lvl results metadata snaps).2.validation_results
        = true →
    ∃ msg, (contentAndFinish cfg env fp lvl results metadata snaps).2.validation_results
        = [validationExceptionFinding msg] ∧
      (contentAndFinish cfg env fp lvl results metadata snaps).2.is_valid = false := by
  unfold contentAndFinish
  split
  · split
    · intro _
      exact ⟨"KeyError", rfl, rfl⟩
    · dsimp only
      exact advancedAndFinish_exception fp lvl _ _ _
        (by simp [h, validate_content_hasExceptionCode cfg env])
  · exact advancedAndFinish_exception fp lvl results metadata snaps h

/-- C2: `validate_file` is total by construction (a Lean function into
`FileValidationReport`), and the single-finding guarantee holds in both
directions.  First, whenever a stage exception reaches the top-level handler
— the reachable escaping raise point in the source is `os.path.getsize`
after a successful existence check — the returned report carries exactly the
one synthetic `VALIDATION_EXCEPTION` finding with severity `Error` and
`is_valid = false`, for every configuration and requested level.  Second,
conversely, every report of every run that contains a `VALIDATION_EXCEPTION`
finding at all is such a single-finding failure report (no stage emits that
code, so findings accumulated before an exception never survive into the
returned report). -/
theorem validate_file_exception_single_finding :
    (∀ (cfg : Config) (env : FileEnv) (fp : String) (lvl : ValidationLevel) (msg : String),
      env.path_exists = true → env.getsize = PyRes.exc msg →
      (validate_file cfg env fp lvl).validation_results = [validationExceptionFinding msg] ∧
      (validate_file cfg env fp lvl).is_valid = false ∧
      (validationExceptionFinding msg).code = "VALIDATION_EXCEPTION" ∧
      (validationExceptionFinding msg).severity = ValidationSeverity.error) ∧
    (∀ (cfg : Config) (env : FileEnv) (fp : String) (lvl : ValidationLevel),
      hasExceptionCode (validate_file cfg env fp lvl).validation_results = true →
      ∃ msg, (validate_file cfg env fp lvl).validation_results
          = [validationExceptionFinding msg] ∧
        (validate_file cfg env fp lvl).is_valid = false) := by
  constructor
  · intro cfg env fp lvl msg hex hsz
    have hb : _validate_basic cfg env = PyRes.exc msg := by
      unfold _validate_basic
      rw [hex, hsz]
      rfl
    unfold validate_file validateFileAux
    rw [hb]
    exact ⟨rfl, rfl, rfl, rfl⟩
  · intro cfg env fp lvl
    unfold validate_file validateFileAux
    have h0 := validate_basic_hasExceptionCode cfg env
    split
    · intro _
      exact ⟨_, rfl, rfl⟩
    · rename_i basicp heq
      rw [heq] at h0
      dsimp only at h0
      split
      · intro hany
        simp only [create_report_results] at hany
        rw [h0] at hany
        cases hany
      · split
        · dsimp only
          split
          · intro _
            exact ⟨"KeyError", rfl, rfl⟩
          · split
            · intro hany
              simp only [create_report_results, hasExceptionCode_append, h0,
                validate_structure_hasExceptionCode cfg env] at hany
              simp at hany
            · exact contentAndFinish_exception cfg env fp lvl _ _ _
                (by simp [h0, validate_structure_hasExceptionCode cfg env])
        · exact contentAndFinish_exception cfg env fp lvl _ _ _ h0

/-- Witness for C2, discharging the hypotheses of both directions at a
concrete environment whose `getsize` raises. -/
theorem validate_file_exception_single_finding_witness :
    ((validate_file _get_default_config envSizeRaises "data.csv"
        ValidationLevel.content).validation_results
        = [validationExceptionFinding "boom"] ∧
      (validate_file _get_default_config envSizeRaises "data.csv"
        ValidationLevel.content).is_valid = false ∧
      (validationExceptionFinding "boom").code = "VALIDATION_EXCEPTION" ∧
      (validationExceptionFinding "boom").severity = ValidationSeverity.error) ∧
    (∃ msg, (validate_file _get_default_config envSizeRaises "data.csv"
        ValidationLevel.content).validation_results = [validationExceptionFinding msg] ∧
      (validate_file _get_default_config envSizeRaises "data.csv"
        ValidationLevel.content).is_valid = false) :=
  ⟨validate_file_exception_single_finding.1 _get_default_config envSizeRaises
      "data.csv" ValidationLevel.content "boom" rfl rfl,
    validate_file_exception_single_finding.2 _get_default_config envSizeRaises
      "data.csv" ValidationLevel.content (by rfl)⟩

/-! ## C3: nonexistent paths -/

/-- C3: For every nonexistent path and every requested level, the report
is invalid and contains exactly the one `FILE_NOT_FOUND` finding. -/
theorem validate_file_not_found (cfg : Config) (env : FileEnv) (fp : String)
    (lvl : ValidationLevel) (hex : env.path_exists = false) :
    (validate_file cfg env fp lvl).is_valid = false ∧
    (validate_file cfg env fp lvl).validation_results = [fileNotFoundFinding] ∧
    fileNotFoundFinding.code = "FILE_NOT_FOUND" := by
  have hb : _validate_basic cfg env = PyRes.ok ([fileNotFoundFinding], []) := by
    unfold _validate_basic
    rw [hex]
    rfl
  unfold validate_file validateFileAux
  rw [hb]
  exact ⟨rfl, rfl, rfl⟩

/-- Witness for C3 at a concrete environment and each of the four levels
(the hypothesis is discharged by `rfl`; the level is universally
instantiated at `Advanced`, the deepest one). -/
theorem validate_file_not_found_witness :
    (validate_file _get_default_config envNotFound "missing.csv"
        ValidationLevel.advanced).is_valid = false ∧
    (validate_file _get_default_config envNotFound "missing.csv"
        ValidationLevel.advanced).validation_results = [fileNotFoundFinding] ∧
    fileNotFoundFinding.code = "FILE_NOT_FOUND" :=
  validate_file_not_found _get_default_config envNotFound "missing.csv"
    ValidationLevel.advanced rfl

/-! ## C6: oversized files short-circuit before structure and content -/

/-- Every code the Structure stage can emit. -/
def structureCodes : List String :=
  ["ENCODING_WARNING", "TOO_MANY_COLUMNS", "INVALID_COLUMN_NAMES",
   "DUPLICATE_COLUMNS", "EMPTY_FILE", "CSV_PARSE_ERROR", "PARQUET_READ_ERROR",
   "LARGE_DATASET", "UNSUPPORTED_FILE_TYPE", "STRUCTURE_VALIDATION_FAILED"]

/-- Every code the Content stage can emit. -/
def contentCodes : List String :=
  ["HIGH_NULL_PERCENTAGE", "DATETIME_COLUMN_DETECTED", "DATETIME_PARSE_WARNING",
   "DUPLICATE_ROWS", "CONTENT_VALIDATION_FAILED"]

/-- The shape of the basic stage's output on an existing, oversized file:
the `FILE_TOO_LARGE` Error first, followed only by extension / MIME
findings. -/
theorem validate_basic_too_large (cfg : Config) (env : FileEnv) (sz : Nat)
    (hex : env.path_exists = true) (hsz : env.getsize = PyRes.ok sz)
    (hbig : sz > cfg.max_file_size) :
    ∃ rs m, _validate_basic cfg env = PyRes.ok (fileTooLargeFinding cfg sz :: rs, m) ∧
      ∀ r ∈ rs, r.code = "INVALID_FILE_EXTENSION" ∨ r.code = "MIME_TYPE_CHECK_FAILED"
        ∨ r.code = "UNEXPECTED_MIME_TYPE" := by
  unfold _validate_basic
  rw [hex, hsz]
  dsimp only
  rw [if_pos hbig]
  cases hext : cfg.allowed_extensions.contains env.ext with
  | false =>
    refine ⟨[invalidExtensionFinding cfg env.ext], _, by rfl, ?_⟩
    intro r hr
    simp only [List.mem_singleton] at hr
    subst hr
    exact Or.inl rfl
  | true =>
    cases hmime : env.magic_mime with
    | exc m =>
      refine ⟨[mimeCheckFailedFinding], _, by rfl, ?_⟩
      intro r hr
      simp only [List.mem_singleton] at hr
      subst hr
      exact Or.inr (Or.inl rfl)
    | ok mt =>
      cases hmt : cfg.allowed_mime_types.contains mt with
      | false =>
        refine ⟨[unexpectedMimeFinding cfg mt], _, by dsimp only; rw [hmt]; rfl, ?_⟩
        intro r hr
        simp only [List.mem_singleton] at hr
        subst hr
        exact Or.inr (Or.inr rfl)
      | true =>
        exact ⟨[], _, by dsimp only; rw [hmt]; rfl, by intro r hr; simp at hr⟩

/-- C6: An existing file whose size exceeds the configured maximum yields
a report with a `FILE_TOO_LARGE` Error, `is_valid = false`, and no finding of
any Structure- or Content-stage code (those stages never ran). -/
theorem validate_file_too_large_short_circuit (cfg : Config) (env : FileEnv)
    (fp : String) (lvl : ValidationLevel) (sz : Nat)
    (hex : env.path_exists = true) (hsz : env.getsize = PyRes.ok sz)
    (hbig : sz > cfg.max_file_size) :
    (validate_file cfg env fp lvl).is_valid = false ∧
    (∃ r ∈ (validate_file cfg env fp lvl).validation_results,
        r.code = "FILE_TOO_LARGE" ∧ r.severity = ValidationSeverity.error) ∧
    ((validate_file cfg env fp lvl).validation_results.all
        (fun r => !(structureCodes.contains r.code) && !(contentCodes.contains r.code))
      = true) := by
  obtain ⟨rs, m, hb, hcodes⟩ := validate_basic_too_large cfg env sz hex hsz hbig
  have herr : hasError (fileTooLargeFinding cfg sz :: rs) = true := by
    simp [hasError, fileTooLargeFinding]
  unfold validate_file validateFileAux
  rw [hb]
  dsimp only
  rw [if_pos herr]
  refine ⟨rfl, ⟨fileTooLargeFinding cfg sz, by simp, rfl, rfl⟩, ?_⟩
  simp only [create_report_results, List.all_eq_true]
  intro r hr
  rcases List.mem_cons.mp hr with hhead | htail
  · subst hhead
    simp only [fileTooLargeFinding]
    decide
  · rcases hcodes r htail with hc | hc | hc <;> rw [hc] <;> decide

/-! ## C8: metadata accumulation is additive -/

/-- The `a`'s keys are all keys of `b`. -/
def metaKeysSub (a b : Meta) : Bool :=
  a.all (fun kv => hasKey b kv.1)

theorem hasKey_setKey (m : Meta) (k k' : String) (v : MetaVal)
    (h : hasKey m k = true) : hasKey (setKey m k' v) k = true := by
  unfold setKey
  simp only [hasKey, List.any_eq_true] at h ⊢
  obtain ⟨p, hp, hpk⟩ := h
  split
  · refine ⟨if p.1 == k' then (k', v) else p, List.mem_map.mpr ⟨p, hp, rfl⟩, ?_⟩
    by_cases hk' : p.1 == k'
    · simp only [hk', if_true]
      have h1 : p.1 = k := by simpa using hpk
      have h2 : p.1 = k' := by simpa using hk'
      simp [← h1, ← h2]
    · simpa [hk'] using hpk
  · exact ⟨p, List.mem_append_left _ hp, hpk⟩

theorem hasKey_dictUpdate (d : List (String × MetaVal)) (m : Meta) (k : String)
    (h : hasKey m k = true) : hasKey (dictUpdate m d) k = true := by
  induction d generalizing m with
  | nil => exact h
  | cons p d ih => exact ih (setKey m p.1 p.2) (hasKey_setKey m k p.1 p.2 h)

theorem metaKeysSub_self (m : Meta) : metaKeysSub m m = true := by
  simp only [metaKeysSub, List.all_eq_true]
  intro kv hkv
  simp only [hasKey, List.any_eq_true]
  exact ⟨kv, hkv, by simp⟩

theorem metaKeysSub_dictUpdate (a m : Meta) (d : List (String × MetaVal))
    (h : metaKeysSub a m = true) : metaKeysSub a (dictUpdate m d) = true := by
  simp only [metaKeysSub, List.all_eq_true] at h ⊢
  intro kv hkv
  exact hasKey_dictUpdate d m kv.1 (h kv hkv)

theorem advancedAndFinish_snaps (fp : String) (lvl : ValidationLevel)
    (results : List ValidationResult) (metadata : Meta) (snaps : List Meta)
    (h : ∀ m' ∈ snaps, metaKeysSub m' metadata = true) :
    ∀ m' ∈ (advancedAndFinish fp lvl results metadata snaps).1,
      metaKeysSub m' ((advancedAndFinish fp lvl results metadata snaps).2).metadata
        = true := by
  unfold advancedAndFinish
  split
  · split
    · exact h
    · dsimp only
      intro m' hm'
      rcases List.mem_append.mp hm' with hmem | hnew
      · exact metaKeysSub_dictUpdate _ _ _ (h m' hmem)
      · rw [List.mem_singleton.mp hnew]
        exact metaKeysSub_self _
  · exact h

theorem contentAndFinish_snaps (cfg : Config) (env : FileEnv) (fp : String)
    (lvl : ValidationLevel) (results : List ValidationResult) (metadata : Meta)
    (snaps : List Meta)
    (h : ∀ m' ∈ snaps, metaKeysSub m' metadata = true) :
    ∀ m' ∈ (contentAndFinish cfg env fp lvl results metadata snaps).1,
      metaKeysSub m' ((contentAndFinish cfg env fp lvl results metadata snaps).2).metadata
        = true := by
  unfold contentAndFinish
  split
  · split
    · exact h
    · dsimp only
      apply advancedAndFinish_snaps
      intro m' hm'
      rcases List.mem_append.mp hm' with hmem | hnew
      · exact metaKeysSub_dictUpdate _ _ _ (h m' hmem)
      · rw [List.mem_singleton.mp hnew]
        exact metaKeysSub_self _
  · exact advancedAndFinish_snaps fp lvl results metadata snaps h

theorem validateFileAux_snaps (cfg : Config) (env : FileEnv) (fp : String)
    (lvl : ValidationLevel) :
    ∀ m' ∈ (validateFileAux cfg env fp lvl).1,
      metaKeysSub m' ((validateFileAux cfg env fp lvl).2).metadata = true := by
  unfold validateFileAux
  split
  · intro m' hm'
    simp at hm'
  · split
    · dsimp only
      intro m' hm'
      rw [List.mem_singleton.mp hm']
      exact metaKeysSub_self _
    · split
      · dsimp only
        split
        · intro m' hm'
          rw [List.mem_singleton.mp hm']
          exact metaKeysSub_self _
        · split
          · dsimp only
            intro m' hm'
            rcases List.mem_cons.mp hm' with h1 | h2
            · rw [h1]
              exact metaKeysSub_dictUpdate _ _ _ (metaKeysSub_self _)
            · rw [List.mem_singleton.mp h2]
              exact metaKeysSub_self _
          · apply contentAndFinish_snaps
            intro m' hm'
            rcases List.mem_cons.mp hm' with h1 | h2
            · rw [h1]
              exact metaKeysSub_dictUpdate _ _ _ (metaKeysSub_self _)
            · rw [List.mem_singleton.mp h2]
              exact metaKeysSub_self _
      · apply contentAndFinish_snaps
        intro m' hm'
        rw [List.mem_singleton.mp hm']
        exact metaKeysSub_self _

/-- C8: Metadata accumulation is additive across stages: every key present
in the accumulated metadata after any stage's `metadata.update(...)` (the run's
snapshots) is still present in the final report's metadata, on every exit
path including short-circuits and the exception handler. -/
theorem validate_file_metadata_additive (cfg : Config) (env : FileEnv)
    (fp : String) (lvl : ValidationLevel) :
    (validate_file_snapshots cfg env fp lvl).all
      (fun m' => metaKeysSub m' (validate_file cfg env fp lvl).metadata) = true := by
  rw [List.all_eq_true]
  intro m' hm'
  exact validateFileAux_snaps cfg env fp lvl m' hm'

/-- Witness for C6: a 200 MiB CSV under the default 100 MiB ceiling. -/
theorem validate_file_too_large_short_circuit_witness :
    (validate_file _get_default_config envTooLarge "big.csv"
        ValidationLevel.content).is_valid = false ∧
    (∃ r ∈ (validate_file _get_default_config envTooLarge "big.csv"
        ValidationLevel.content).validation_results,
        r.code = "FILE_TOO_LARGE" ∧ r.severity = ValidationSeverity.error) ∧
    ((validate_file _get_default_config envTooLarge "big.csv"
        ValidationLevel.content).validation_results.all
        (fun r => !(structureCodes.contains r.code) && !(contentCodes.contains r.code))
      = true) :=
  validate_file_too_large_short_circuit _get_default_config envTooLarge "big.csv"
    ValidationLevel.content (200 * 1024 * 1024) rfl rfl (by norm_num [_get_default_config])

/-! ## C4: the duplicate-column check never fires -/

/-- The observation of a CSV file whose raw header is `id,name,name`:
`pd.read_csv` mangles the repeated header label by default in every pandas
version, so the parsed sample's column labels are `id, name, name.1` — the
parser can never hand the structure stage a repeated label. -/
def envCsvMangledHeader : FileEnv :=
  { envCsvOk with csv_read := .ok ["id", "name", "name.1"] }

/-- C4: the program evaluated at the claim's inputs.  For the CSV file with
header `id,name,name`, pandas mangles the parsed labels to
`id, name, name.1`, `columns.duplicated()` marks nothing, and the run emits
no `DUPLICATE_COLUMNS` finding (the report even stays valid — `name.1` only
draws the `INVALID_COLUMN_NAMES` warning); for a parquet schema repeating
`name`, the structure stage has no duplicate check at all.  The check of
lines 315-325 — whose intent the claim states — is latent (it would emit an
Error if the parsed labels ever repeated) but dead for every accepted
input. -/
theorem duplicate_columns_never_emitted :
    envCsvMangledHeader.csv_read = CsvRead.ok ["id", "name", "name.1"] ∧
    (duplicatedMarks ["id", "name", "name.1"]).isEmpty = true ∧
    (validate_file _get_default_config envCsvMangledHeader "dup.csv"
        ValidationLevel.structureLvl).validation_results.all
      (fun r => r.code != "DUPLICATE_COLUMNS") = true ∧
    (validate_file _get_default_config envCsvMangledHeader "dup.csv"
        ValidationLevel.structureLvl).is_valid = true ∧
    envParquetDupSchema.parquet_read
        = ParquetRead.ok [("name", "Int64"), ("name", "Int64")] 5 ∧
    (duplicatedMarks ["name", "name"]).isEmpty = false ∧
    (validate_file _get_default_config envParquetDupSchema "data.parquet"
        ValidationLevel.structureLvl).validation_results.all
      (fun r => r.code != "DUPLICATE_COLUMNS") = true ∧
    (validate_file _get_default_config envParquetDupSchema "data.parquet"
        ValidationLevel.structureLvl).is_valid = true ∧
    (duplicateColumnsFinding ["name"]).severity = ValidationSeverity.error :=
  ⟨rfl, rfl, by decide, by decide, rfl, rfl, by decide, by decide, rfl⟩

/-! ## C5: canonical time-column detection samples 10 values, not 100 -/

/-- A `tagTime` column with ten valid values followed by an invalid one. -/
def tagTimeOverTenCol : PlColumn where
  name := "tagTime"
  dtype := PlDtype.utf8
  values := List.replicate 10 (Option.some "2023010100") ++ [Option.some "abc"]
  nUnique := 2

def dfTagOverTen : PlDataFrame where
  height := 11
  columns := [tagTimeOverTenCol]

/-- The `_validate_time_format` succeeds iff every non-null value in the sample
passes its per-value format check (the all-or-nothing rule). -/
theorem validate_time_format_eq_true_iff (strptimeOk : String → Bool)
    (values : List (Option String)) (ct : String) :
    _validate_time_format strptimeOk values ct = true ↔
      ∀ s, Option.some s ∈ values → timeValueOk strptimeOk ct s = true := by
  unfold _validate_time_format
  rw [List.all_eq_true]
  constructor
  · intro h s hs
    simpa using h _ hs
  · intro h v hv
    cases v with
    | none => rfl
    | some s => exact h s hv

/-- A `tagTime` column whose cells are fullwidth decimal digits: Python's
`isdigit()`/`int()` accept them, so the program detects the column, while no
cell consists of ASCII digits. -/
def tagTimeFullwidthCol : PlColumn where
  name := "tagTime"
  dtype := PlDtype.utf8
  values := [Option.some "２０２３０１０１００", Option.some "２０２３０１０１０１"]
  nUnique := 2

def dfTagFullwidth : PlDataFrame where
  height := 2
  columns := [tagTimeFullwidthCol]

/-- Two failures of the claim at explicit inputs.  First, sampling: the 11th
value `"abc"` sits within the first 100 values and fails every tagtime
format, so the claim (validation over the first 100 values, all-or-nothing)
demands no detection — but `detect_time_column` samples only `head(10)` and
reports `detected = true`.  Second, the digit alphabet: on a column of
10-fullwidth-digit values, every sampled value fails the claim's
"exactly 10 ASCII digits" format, yet the program (whose `isdigit()`/`int()`
accept any Unicode decimal digits) reports `detected = true`. -/
theorem detect_time_column_claim_counterexample :
    (TIME_COLUMNS.contains tagTimeOverTenCol.name = true ∧
     dfTagOverTen.columns = [tagTimeOverTenCol] ∧
     dfTagOverTen.height ≠ 0 ∧
     ((tagTimeOverTenCol.values.take 100).any (fun v =>
        match v with
        | Option.some s => !(timeValueOk (fun _ => false) "tagtime" s)
        | Option.none => false)) = true ∧
     detect_time_column (fun _ => false) dfTagOverTen
       = Option.some
           { column_name := "tagTime", column_type := "tagtime",
             format := TAGTIME_FORMAT, detected := true }) ∧
    (TIME_COLUMNS.contains tagTimeFullwidthCol.name = true ∧
     dfTagFullwidth.columns = [tagTimeFullwidthCol] ∧
     dfTagFullwidth.height ≠ 0 ∧
     (tagTimeFullwidthCol.values.all (fun v =>
        match v with
        | Option.some s => !(s.length == 10 && s.toList.all Char.isDigit)
        | Option.none => true)) = true ∧
     detect_time_column (fun _ => false) dfTagFullwidth
       = Option.some
           { column_name := "tagTime", column_type := "tagtime",
             format := TAGTIME_FORMAT, detected := true }) :=
  ⟨⟨rfl, rfl, by decide, rfl, rfl⟩, ⟨rfl, rfl, by decide, rfl, rfl⟩⟩

/-- C5 (amended): For a nonempty dataframe whose first column name is in
the canonical time-column set, detection validates the first **10** values of
that column, all-or-nothing: if every sampled non-null value passes its
format (oracle `strptime` for `datetime`, the 10-digit decomposition for
`tagtime`), detection returns the populated info dict; if any sampled
non-null value fails, it returns nothing. -/
theorem detect_time_column_first_ten (strptimeOk : String → Bool)
    (df : PlDataFrame) (first_column : PlColumn) (rest : List PlColumn)
    (hcols : df.columns = first_column :: rest)
    (hh : df.height ≠ 0)
    (hname : TIME_COLUMNS.contains first_column.name = true) :
    ((∀ s, Option.some s ∈ first_column.values.take 10 →
        timeValueOk strptimeOk
          (if first_column.name == "DateTime" then "datetime" else "tagtime") s = true) →
      detect_time_column strptimeOk df
        = Option.some
            { column_name := first_column.name
              column_type := if first_column.name == "DateTime" then "datetime" else "tagtime"
              format := if (if first_column.name == "DateTime" then "datetime" else "tagtime")
                            == "datetime"
                        then DATETIME_FORMAT else TAGTIME_FORMAT
              detected := true }) ∧
    ((∃ s, Option.some s ∈ first_column.values.take 10 ∧
        timeValueOk strptimeOk
          (if first_column.name == "DateTime" then "datetime" else "tagtime") s = false) →
      detect_time_column strptimeOk df = Option.none) := by
  have h0 : (df.height == 0) = false := by
    simpa using hh
  unfold detect_time_column
  rw [h0, hcols]
  dsimp only
  rw [if_pos hname]
  by_cases hvf : _validate_time_format strptimeOk (first_column.values.take 10)
      (if first_column.name == "DateTime" then "datetime" else "tagtime") = true
  · constructor
    · intro _
      rw [if_pos hvf]
      rfl
    · intro ⟨s, hmem, hbad⟩
      have := (validate_time_format_eq_true_iff _ _ _).mp hvf s hmem
      rw [this] at hbad
      exact absurd hbad (by simp)
  · constructor
    · intro hall
      exact absurd ((validate_time_format_eq_true_iff _ _ _).mpr hall) hvf
    · intro _
      rw [if_neg hvf]
      rfl

/-- The spec's scenario dataframe: first column `tagTime` with sample values
`["2023010100", "2023010101"]`. -/
def tagTimeScenarioCol : PlColumn where
  name := "tagTime"
  dtype := PlDtype.utf8
  values := [Option.some "2023010100", Option.some "2023010101"]
  nUnique := 2

def dfTagScenario : PlDataFrame where
  height := 2
  columns := [tagTimeScenarioCol]

/-- Witness for C5 (amended): the scenario column is detected as `tagtime`. -/
theorem detect_time_column_first_ten_witness :
    detect_time_column (fun _ => false) dfTagScenario
      = Option.some
          { column_name := "tagTime", column_type := "tagtime",
            format := TAGTIME_FORMAT, detected := true } :=
  (detect_time_column_first_ten (fun _ => false) dfTagScenario tagTimeScenarioCol []
      rfl (by decide) rfl).1
    (by
      intro s hs
      simp only [tagTimeScenarioCol, List.take, List.mem_cons, List.mem_singleton] at hs
      rcases hs with h | h | h
      · rw [Option.some.injEq] at h
        subst h
        rfl
      · rw [Option.some.injEq] at h
        subst h
        rfl
      · simp at h)

/-! ## C9: `_parse_tagtime` is total and maps invalid cells to null -/

/-- A cell is an acceptable tagtime value: non-null, exactly ten digits,
decomposing into a constructible datetime (the checks of
`_validate_time_format`, stated per cell). -/
def tagtimeCellOk (v : Option String) : Bool :=
  match v with
  | Option.none => false
  | Option.some s => tagtimeStringOk s

/-- C9: `_parse_tagtime` is total (it is a plain function into
`Option PyDatetime`, the `try`/`except` folded into the `none` results) and
returns a datetime exactly on acceptable tagtime cells; consequently
`parse_time_column`'s tagtime branch maps every invalid cell of the column to
null instead of failing. -/
theorem parse_tagtime_total :
    (∀ v : Option String, (_parse_tagtime v).isSome = tagtimeCellOk v) ∧
    (∀ (vals : List (Option String)) (i : Nat) (v : Option String),
      vals.get? i = Option.some v → tagtimeCellOk v = false →
      (parse_time_column_tagtime vals).get? i = Option.some Option.none) := by
  have hmain : ∀ v : Option String, (_parse_tagtime v).isSome = tagtimeCellOk v := by
    intro v
    cases v with
    | none => rfl
    | some s =>
      unfold _parse_tagtime tagtimeCellOk tagtimeStringOk
      dsimp only
      by_cases hlen : s.length = 10
      · by_cases hdig : s.toList.all pyIsDecDigit = true
        · simp only [hlen, hdig, tagtimeYear, tagtimeMonth, tagtimeDay, tagtimeHour,
            bne_self_eq_false, Bool.not_true, Bool.or_false, Bool.false_or,
            beq_self_eq_true, Bool.true_and, Bool.and_true]
          rw [if_neg (by simp)]
          split
          · rename_i hv
            rw [Option.isSome_some]
            exact hv.symm
          · rename_i hv
            have hv2 : datetimeValid (pyDigitsToNat (s.toList.take 4))
                (pyDigitsToNat ((s.toList.drop 4).take 2))
                (pyDigitsToNat ((s.toList.drop 6).take 2))
                (pyDigitsToNat ((s.toList.drop 8).take 2)) = false := by
              simpa using hv
            rw [Option.isSome_none]
            exact hv2.symm
        · have hdig2 : s.toList.all pyIsDecDigit = false := by
            simpa using hdig
          rw [hdig2, if_pos (by simp)]
          simp
      · have hlen2 : (s.length == 10) = false := by
          simpa using hlen
        have hbne : (s.length != 10) = true := by
          simp [bne, hlen2]
        rw [hbne, hlen2, if_pos (by simp)]
        simp
  refine ⟨hmain, ?_⟩
  intro vals i v hget hbad
  unfold parse_time_column_tagtime
  rw [List.get?_map, hget, Option.map_some']
  have h := hmain v
  rw [hbad] at h
  cases hp : _parse_tagtime v with
  | none => rfl
  | some d =>
    rw [hp] at h
    simp at h

/-- Witness for C9: the invalid cell `"abc"` is mapped to null. -/
theorem parse_tagtime_total_witness :
    (parse_time_column_tagtime [Option.some "abc"]).get? 0 = Option.some Option.none :=
  parse_tagtime_total.2 [Option.some "abc"] 0 (Option.some "abc") rfl rfl

/-! ## C10: `analyze_variables` raises on a zero-row frame with a string column -/

/-- On a zero-height frame, the classification loop raises
`ZeroDivisionError` at the first string column. -/
theorem classifyColumns_zero (cols : List PlColumn)
    (h : ∃ c ∈ cols, c.dtype = PlDtype.utf8) :
    classifyColumns 0 cols = .error PyErr.zeroDivision := by
  induction cols with
  | nil => simp at h
  | cons col rest ih =>
    obtain ⟨c, hc, hutf⟩ := h
    unfold classifyColumns
    by_cases hnum : numericDtypes.contains col.dtype = true
    · rw [if_pos hnum]
      have hcrest : c ∈ rest := by
        rcases List.mem_cons.mp hc with rfl | hr
        · rw [hutf] at hnum
          simp [numericDtypes] at hnum
        · exact hr
      rw [ih ⟨c, hcrest, hutf⟩]
    · rw [if_neg hnum]
      by_cases hu : (col.dtype == PlDtype.utf8) = true
      · rw [if_pos hu]
        rfl
      · rw [if_neg hu]
        have hcrest : c ∈ rest := by
          rcases List.mem_cons.mp hc with rfl | hr
          · exact absurd (by rw [hutf]; rfl) hu
          · exact hr
        rw [ih ⟨c, hcrest, hutf⟩]

/-- C10: `analyze_variables` is not total: a dataframe with zero rows and
at least one string-typed column makes the categorical/text rule divide
`unique_count` by the zero row count, raising `ZeroDivisionError` (for either
value of `exclude_time_column` — nothing is detected on an empty frame). -/
theorem analyze_variables_zero_rows (strptimeOk : String → Bool)
    (df : PlDataFrame) (b : Bool) (hh : df.height = 0)
    (h : ∃ c ∈ df.columns, c.dtype = PlDtype.utf8) :
    analyze_variables strptimeOk df b = .error PyErr.zeroDivision := by
  have hdet : detect_time_column strptimeOk df = Option.none := by
    unfold detect_time_column
    rw [hh]
    rfl
  unfold analyze_variables
  rw [hdet]
  dsimp only
  rw [ite_self, hh, classifyColumns_zero df.columns h]

/-- A zero-row frame with one string column. -/
def xUtf8Col : PlColumn where
  name := "x"
  dtype := PlDtype.utf8
  values := []
  nUnique := 0

def dfZeroRows : PlDataFrame where
  height := 0
  columns := [xUtf8Col]

/-- Witness for C10 at the concrete empty frame. -/
theorem analyze_variables_zero_rows_witness :
    analyze_variables (fun _ => false) dfZeroRows true = .error PyErr.zeroDivision :=
  analyze_variables_zero_rows (fun _ => false) dfZeroRows true rfl (by decide)

/-! ## C7: categorical / free-text classification of string columns -/

/-- The numeric-branch selector of the classification loop. -/
def selNumeric (c : PlColumn) : Option VarEntry :=
  if numericDtypes.contains c.dtype then Option.some (numericEntry c) else Option.none

/-- The categorical-branch selector (only meaningful for nonzero height). -/
def selCategorical (height : Nat) (c : PlColumn) : Option VarEntry :=
  if numericDtypes.contains c.dtype then Option.none
  else if c.dtype == PlDtype.utf8 then
    (if (c.nUnique : ℚ) / (height : ℚ) < 1/2 then Option.some (categoricalEntry c)
     else Option.none)
  else Option.none

/-- The text-branch selector: string columns with a high unique ratio, plus
every other dtype. -/
def selText (height : Nat) (c : PlColumn) : Option VarEntry :=
  if numericDtypes.contains c.dtype then Option.none
  else if c.dtype == PlDtype.utf8 then
    (if (c.nUnique : ℚ) / (height : ℚ) < 1/2 then Option.none
     else Option.some (textEntry c))
  else Option.some (otherEntry c)

/-- On a nonzero height, the classification loop never raises and its three
lists are the `filterMap`s of the three selectors, in column order. -/
theorem classifyColumns_pos (height : Nat) (hh : height ≠ 0) (cols : List PlColumn) :
    classifyColumns height cols
      = .ok (cols.filterMap selNumeric, cols.filterMap (selCategorical height),
             cols.filterMap (selText height)) := by
  induction cols with
  | nil => rfl
  | cons col rest ih =>
    unfold classifyColumns
    rw [ih]
    by_cases hnum : col.dtype ∈ numericDtypes
    · simp [selNumeric, selCategorical, selText, hnum, List.filterMap_cons]
    · by_cases hu : col.dtype = PlDtype.utf8
      · by_cases hq : (col.nUnique : ℚ) / (height : ℚ) < 1/2
        · simp [-one_div, selNumeric, selCategorical, selText, numericDtypes, hnum, hu, hh, hq,
            List.filterMap_cons]
        · simp [-one_div, selNumeric, selCategorical, selText, numericDtypes, hnum, hu, hh, hq,
            List.filterMap_cons]
      · simp [selNumeric, selCategorical, selText, hnum, hu, List.filterMap_cons]

/-- The `tagTime` column of the counterexample frame: string-typed, unique
ratio 1/3 (below the categorical threshold). -/
def tagCatCol : PlColumn where
  name := "tagTime"
  dtype := PlDtype.utf8
  values := [Option.some "2023010100", Option.some "2023010100", Option.some "2023010100"]
  nUnique := 1

def dfTagCat : PlDataFrame where
  height := 3
  columns := [tagCatCol]

/-- A string-typed column whose unique ratio is below 1/2 — which the claim
says is classified as categorical — is dropped from the analysis entirely
when it is the detected time column: with the default
`exclude_time_column=True`, `analyze_variables` returns no classification at
all for it. -/
theorem analyze_variables_exclusion_counterexample :
    1 ≤ dfTagCat.height ∧
    tagCatCol ∈ dfTagCat.columns ∧
    tagCatCol.dtype = PlDtype.utf8 ∧
    ((tagCatCol.nUnique : ℚ) / (dfTagCat.height : ℚ) < 1/2) ∧
    analyze_variables (fun _ => false) dfTagCat true
      = Except.ok { total_variables := 0, numeric_variables := [],
                    categorical_variables := [], text_variables := [] } :=
  ⟨by decide, by decide, rfl, by norm_num [tagCatCol, dfTagCat], rfl⟩

/-- C7 (amended): For a dataframe with at least one row, every
string-typed column — other than a detected time column removed by
`exclude_time_column` — is classified as categorical exactly when
`unique_count / total_rows < 0.5` and as free-text otherwise, keeping its
name and counts. -/
theorem analyze_variables_utf8_rule (strptimeOk : String → Bool)
    (df : PlDataFrame) (b : Bool) (col : PlColumn)
    (hh : df.height ≠ 0)
    (hmem : col ∈ df.columns)
    (hutf : col.dtype = PlDtype.utf8)
    (hexcl : ∀ ti, b = true → detect_time_column strptimeOk df = Option.some ti →
        col.name ≠ ti.column_name) :
    ∃ r, analyze_variables strptimeOk df b = .ok r ∧
      (categoricalEntry col ∈ r.categorical_variables ↔
        (col.nUnique : ℚ) / (df.height : ℚ) < 1/2) ∧
      (textEntry col ∈ r.text_variables ↔
        ¬ ((col.nUnique : ℚ) / (df.height : ℚ) < 1/2)) := by
  have hnum : numericDtypes.contains col.dtype = false := by
    rw [hutf]
    rfl
  -- the post-exclusion column list, and membership of `col` in it
  obtain ⟨cols2, hcols2, hmem2⟩ :
      ∃ cols2,
        (if b && !df.columns.isEmpty then
          match detect_time_column strptimeOk df with
          | Option.some time_info =>
              df.columns.filter (fun c => c.name != time_info.column_name)
          | Option.none => df.columns
         else df.columns) = cols2 ∧ col ∈ cols2 := by
    cases hb : b with
    | false => exact ⟨df.columns, by simp [hb], hmem⟩
    | true =>
      have hne : df.columns.isEmpty = false := by
        cases hcl : df.columns with
        | nil => rw [hcl] at hmem; simp at hmem
        | cons a l => rfl
      cases hdet : detect_time_column strptimeOk df with
      | none => exact ⟨df.columns, by simp [hb, hne, hdet], hmem⟩
      | some ti =>
        refine ⟨df.columns.filter (fun c => c.name != ti.column_name),
          by simp [hb, hne, hdet], ?_⟩
        refine List.mem_filter.mpr ⟨hmem, ?_⟩
        simpa using hexcl ti hb hdet
  unfold analyze_variables
  dsimp only
  rw [hcols2, classifyColumns_pos df.height hh cols2]
  refine ⟨_, rfl, ?_, ?_⟩
  · constructor
    · intro hin
      obtain ⟨c2, hc2, hsel⟩ := List.mem_filterMap.mp hin
      unfold selCategorical at hsel
      split at hsel
      · exact absurd hsel (by simp)
      · split at hsel
        · split at hsel
          · rename_i hq2
            have huc : c2.nUnique = col.nUnique := by
              simpa [categoricalEntry] using
                congrArg VarEntry.unique_count (Option.some.inj hsel)
            rw [← huc]
            exact hq2
          · exact absurd hsel (by simp)
        · exact absurd hsel (by simp)
    · intro hq
      refine List.mem_filterMap.mpr ⟨col, hmem2, ?_⟩
      unfold selCategorical
      rw [hutf]
      rw [if_neg (by decide), if_pos (by decide), if_pos hq]
  · constructor
    · intro hin
      obtain ⟨c2, hc2, hsel⟩ := List.mem_filterMap.mp hin
      unfold selText at hsel
      split at hsel
      · exact absurd hsel (by simp)
      · split at hsel
        · split at hsel
          · exact absurd hsel (by simp)
          · rename_i hq2
            have huc : c2.nUnique = col.nUnique := by
              simpa [textEntry] using
                congrArg VarEntry.unique_count (Option.some.inj hsel)
            rw [← huc]
            exact hq2
        · have htype := congrArg VarEntry.type (Option.some.inj hsel)
          simp [otherEntry, textEntry] at htype
    · intro hq
      refine List.mem_filterMap.mpr ⟨col, hmem2, ?_⟩
      unfold selText
      rw [hutf]
      rw [if_neg (by decide), if_pos (by decide), if_neg hq]

/-- Witness for C7 (amended): with `exclude_time_column=False`, the scenario
`tagTime` column (unique ratio 1) is classified as free-text, not
categorical. -/
theorem analyze_variables_utf8_rule_witness :
    ∃ r, analyze_variables (fun _ => false) dfTagScenario false = .ok r ∧
      (categoricalEntry tagTimeScenarioCol ∈ r.categorical_variables ↔
        (tagTimeScenarioCol.nUnique : ℚ) / (dfTagScenario.height : ℚ) < 1/2) ∧
      (textEntry tagTimeScenarioCol ∈ r.text_variables ↔
        ¬ ((tagTimeScenarioCol.nUnique : ℚ) / (dfTagScenario.height : ℚ) < 1/2)) :=
  analyze_variables_utf8_rule (fun _ => false) dfTagScenario false tagTimeScenarioCol
    (by decide) (by decide) rfl (fun ti hb _ => absurd hb (by decide))

end Dlflow
